import Mathlib

/-!
Shallow embedding of the MemPro memory-analysis core (analyzer.go together
with the data structures of types.go) and proofs of the specification claims.

Modelling conventions:
- Go `int` and `int64` fields are embedded as `Int`.
- Go `float64` fields (`MemoryFragmentation`, `LeakScore`, `AverageSize`,
  `Percentage`) are embedded as exact rationals `ℚ`; every comparison the
  analyzer performs on them is against an integer threshold, where rational
  and IEEE comparison agree.
- Go `strings.Contains` is embedded as `strContains`, a byte/char substring
  test (UTF-8 is self-synchronizing, so byte- and character-level substring
  presence coincide on valid strings).
- `fmt.Sprintf` verbs `%d`, `%s`, `%v` are embedded via `toString`; `%.2f`
  and `%.0f` are embedded as decimal rendering of the value rounded to the
  shown precision (`fmtFloat2`, `fmtFloat0`).
- `sort.Slice(issues, less)` is an unstable comparison sort; it is embedded
  as `List.insertionSort` with the non-strict comparator `less j i = false`.
  All properties proved here (sortedness with respect to the comparator and
  multiset preservation) hold of any correct comparison sort.
- The nil-analyzer / nil-data guard (`ma == nil || ma.data == nil`) is
  embedded by giving each operation an `Option MemProData` argument; `none`
  covers both nil cases.
-/

set_option maxRecDepth 100000

attribute [local semireducible] Rat.mul Rat.inv Rat.add Rat.sub

/-- Go substring test `strings.Contains(s, sub)`. -/
def strContains (s sub : String) : Bool := decide (sub.data <:+: s.data)

/-- Round a rational to the nearest integer (floor of q + 1/2), written with
explicit integer arithmetic so that it evaluates inside the kernel. -/
def qRound (q : ℚ) : Int := Int.fdiv (2 * q.num + (q.den : Int)) (2 * (q.den : Int))

/-- Rendering of a rational with two decimal places, the embedding of the
`%.2f` Sprintf verb (value rounded to the nearest hundredth). -/
def fmtFloat2 (q : ℚ) : String :=
  let n : Int := qRound (q * 100)
  let sign := if n < 0 then "-" else ""
  let m := n.natAbs
  let r := m % 100
  sign ++ toString (m / 100) ++ "." ++ (if r < 10 then "0" else "") ++ toString r

/-- Rendering of a rational with no decimal places, the embedding of the
`%.0f` Sprintf verb (value rounded to the nearest integer). -/
def fmtFloat0 (q : ℚ) : String := toString (qRound q)

/-- CallTree from types.go: a call tree entry with allocation information. -/
inductive CallTree where
  | node (FunctionName FileName : String) (LineNumber AllocationCount : Int)
         (TotalSize SelfSize InclusiveSize : Int) (Children : List CallTree)

/-- Function from types.go: function-level allocation statistics (named
`FunctionStat` here because `Function` is taken in Lean). -/
structure FunctionStat where
  FunctionName : String
  FileName : String
  LineNumber : Int
  AllocationCount : Int
  TotalSize : Int
  AverageSize : ℚ
  MinSize : Int
  MaxSize : Int
  Percentage : ℚ
deriving DecidableEq, Repr

/-- Leak from types.go: a memory leak with suspect information. -/
structure Leak where
  FunctionName : String
  FileName : String
  LineNumber : Int
  LeakSize : Int
  LeakCount : Int
  LeakScore : ℚ
  CallStack : String
  IsSuspect : Bool
deriving DecidableEq, Repr

/-- PageView from types.go: memory page usage information. -/
structure PageView where
  Address : Int
  State : String
  PageType : String
  Protection : Int
  StackId : Int
  Usage : Int
  AllocationCount : Int
  TotalSize : Int
  FunctionName : String
  CallStack : String
deriving DecidableEq, Repr

/-- AllocType from types.go: allocation type statistics. -/
structure AllocType where
  TypeName : String
  AllocationCount : Int
  TotalSize : Int
  AverageSize : ℚ
  MinSize : Int
  MaxSize : Int
  Percentage : ℚ
  MostCommonFunction : String
  MostCommonFile : String
  MostCommonLine : Int
deriving DecidableEq, Repr

/-- MemProData from types.go: the complete MemPro analysis JSON structure. -/
structure MemProData where
  SessionName : String
  TotalSnapshots : Int
  TotalAllocations : Int
  TotalSize : Int
  LeakCount : Int
  LeakSize : Int
  MemoryFragmentation : ℚ
  CallTrees : List CallTree
  Functions : List FunctionStat
  Leaks : List Leak
  PageViews : List PageView
  Types : List AllocType

/-- MemoryIssue from types.go: a detected memory issue (the Go field `Type`
is named `IssueType` here because `Type` is a Lean keyword). -/
structure MemoryIssue where
  Severity : String
  IssueType : String
  Description : String
  FunctionName : String
  FileName : String
  LineNumber : Int
  Size : Int
  Count : Int
  Score : ℚ
  Suggestion : String
deriving DecidableEq, Repr

/-- calculateLeakSeverity from analyzer.go. -/
def calculateLeakSeverity (leak : Leak) : String :=
  if leak.IsSuspect ∧ leak.LeakSize > 100000 then "Critical"
  else if leak.IsSuspect ∨ leak.LeakSize > 50000 then "High"
  else if leak.LeakSize > 10000 ∨ leak.LeakCount > 100 then "Medium"
  else "Low"

/-- formatLeakDescription from analyzer.go. -/
def formatLeakDescription (leak : Leak) : String :=
  if strContains leak.FunctionName "Unknown Function" then
    "Unknown function leaked " ++ toString leak.LeakSize ++ " bytes across " ++
      toString leak.LeakCount ++
      " allocations. This may indicate missing debug symbols or dynamically loaded code."
  else
    "Function leaked " ++ toString leak.LeakSize ++ " bytes across " ++
      toString leak.LeakCount ++ " allocations"

/-- generateLeakSuggestion from analyzer.go. -/
def generateLeakSuggestion (leak : Leak) : String :=
  if strContains leak.FunctionName "Unknown Function" then
    "Enable debug symbols and rebuild with full symbol information to identify the exact source of this leak. Check for third-party libraries or dynamically loaded modules."
  else if strContains leak.FunctionName "std::_Allocate" ∨
      strContains leak.FunctionName "std::vector" then
    "STL container leak detected. Ensure proper cleanup in destructors, check for circular references, and verify that containers are properly cleared before going out of scope."
  else if strContains leak.FunctionName "main" then
    "Leak originated from main function. Review allocation ownership and ensure all allocated resources are freed before program exit. Consider using RAII or smart pointers."
  else
    "Review allocation patterns in this function and ensure all allocated memory is properly deallocated. Consider using smart pointers (std::unique_ptr, std::shared_ptr) or RAII patterns."

/-- The MemoryIssue built for one Leak in the loop body of AnalyzeLeaks. -/
def buildLeakIssue (leak : Leak) : MemoryIssue where
  Severity := calculateLeakSeverity leak
  IssueType := "MemoryLeak"
  Description := formatLeakDescription leak
  FunctionName := leak.FunctionName
  FileName := leak.FileName
  LineNumber := leak.LineNumber
  Size := leak.LeakSize
  Count := leak.LeakCount
  Score := leak.LeakScore
  Suggestion := generateLeakSuggestion leak

/-- The severityOrder map literal in AnalyzeLeaks:
`map[string]int\x7b"Critical": 0, "High": 1, "Medium": 2, "Low": 3\x7d`,
returning `none` when the key is absent (Go `ok == false`). -/
def severityOrder (s : String) : Option Nat :=
  if s = "Critical" then some 0
  else if s = "High" then some 1
  else if s = "Medium" then some 2
  else if s = "Low" then some 3
  else none

/-- The effective rank used by the AnalyzeLeaks comparator: map value when
present, 999 for unknown severity strings. -/
def severityRank (s : String) : Nat :=
  match severityOrder s with
  | some r => r
  | none => 999

/-- The `less` closure passed to sort.Slice in AnalyzeLeaks. -/
def leakIssueLess (i j : MemoryIssue) : Bool :=
  let orderI := severityRank i.Severity
  let orderJ := severityRank j.Severity
  if orderI ≠ orderJ then decide (orderI < orderJ) else decide (i.Size > j.Size)

/-- The non-strict order induced by the AnalyzeLeaks comparator: `i` may come
before `j` exactly when `j` is not strictly less than `i`. -/
def leakIssueLE (i j : MemoryIssue) : Prop := leakIssueLess j i = false

instance : DecidableRel leakIssueLE := fun i j => by
  unfold leakIssueLE; infer_instance

/-- AnalyzeLeaks from analyzer.go: filter out zero-evidence records, build
one issue per remaining leak, then sort by severity rank and size. -/
def AnalyzeLeaks : Option MemProData → List MemoryIssue
  | none => []
  | some data =>
    let issues := data.Leaks.foldl
      (fun acc leak =>
        if leak.LeakSize = 0 ∧ leak.LeakCount = 0 then acc
        else acc ++ [buildLeakIssue leak]) []
    List.insertionSort leakIssueLE issues

/-- AnalyzeFragmentation from analyzer.go. -/
def AnalyzeFragmentation : Option MemProData → List MemoryIssue
  | none => []
  | some data =>
    if data.MemoryFragmentation > 80 then
      [{ Severity := "High"
         IssueType := "MemoryFragmentation"
         Description := "Memory fragmentation is at " ++
           fmtFloat2 data.MemoryFragmentation ++
           "%, which indicates severe fragmentation"
         FunctionName := ""
         FileName := ""
         LineNumber := 0
         Size := data.TotalSize
         Count := data.TotalAllocations
         Score := data.MemoryFragmentation
         Suggestion := "Consider implementing object pooling or using memory arenas to reduce fragmentation. Review allocation patterns and consolidate small allocations where possible." }]
    else if data.MemoryFragmentation > 50 then
      [{ Severity := "Medium"
         IssueType := "MemoryFragmentation"
         Description := "Memory fragmentation is at " ++
           fmtFloat2 data.MemoryFragmentation ++
           "%, which may impact performance"
         FunctionName := ""
         FileName := ""
         LineNumber := 0
         Size := data.TotalSize
         Count := data.TotalAllocations
         Score := data.MemoryFragmentation
         Suggestion := "Monitor fragmentation levels and consider optimizing allocation patterns if fragmentation increases." }]
    else []

/-- The MemoryIssue built for one FunctionStat in AnalyzeLargeAllocations. -/
def buildLargeIssue (fn : FunctionStat) : MemoryIssue where
  Severity := if fn.MaxSize > 100000 then "High" else "Medium"
  IssueType := "LargeAllocation"
  Description := "Large allocation detected: average " ++
    fmtFloat0 fn.AverageSize ++ " bytes, max " ++ toString fn.MaxSize ++
    " bytes across " ++ toString fn.AllocationCount ++ " allocations"
  FunctionName := fn.FunctionName
  FileName := fn.FileName
  LineNumber := fn.LineNumber
  Size := fn.TotalSize
  Count := fn.AllocationCount
  Score := (fn.MaxSize : ℚ)
  Suggestion := "Review if large allocations can be split into smaller chunks or allocated incrementally. Consider using streaming or chunked processing for large data."

/-- AnalyzeLargeAllocations from analyzer.go. -/
def AnalyzeLargeAllocations : Option MemProData → List MemoryIssue
  | none => []
  | some data =>
    data.Functions.foldl
      (fun acc fn =>
        if fn.AverageSize > 10000 ∨ fn.MaxSize > 50000 then
          acc ++ [buildLargeIssue fn]
        else acc) []

/-- The guarded leak-percentage computation in GetSummary (lines 156-159 of
analyzer.go). -/
def leakPercentage (data : MemProData) : ℚ :=
  if data.TotalSize > 0 then
    (data.LeakSize : ℚ) / (data.TotalSize : ℚ) * 100
  else 0

/-- The initial Sprintf of GetSummary (the multi-line template filled with
session data, lines 161-176 of analyzer.go). -/
def summaryHeader (data : MemProData) : String :=
  "Memory Analysis Summary\n======================\nSession: " ++
  data.SessionName ++
  "\nTotal Allocations: " ++ toString data.TotalAllocations ++
  "\nTotal Size: " ++ toString data.TotalSize ++ " bytes (" ++
  fmtFloat2 ((data.TotalSize : ℚ) / 1024 / 1024) ++ " MB)" ++
  "\nLeak Count: " ++ toString data.LeakCount ++
  "\nLeak Size: " ++ toString data.LeakSize ++ " bytes (" ++
  fmtFloat2 ((data.LeakSize : ℚ) / 1024 / 1024) ++ " MB)" ++
  ("\nLeak Percentage: " ++
    (fmtFloat2 (leakPercentage data) ++
      ("%" ++
        ("\nMemory Fragmentation: " ++
          (fmtFloat2 data.MemoryFragmentation ++ "%\n\nCritical Findings:\n")))))

/-- GetSummary from analyzer.go. -/
def GetSummary : Option MemProData → String
  | none => "Error: No data available for analysis"
  | some data =>
    let summary := summaryHeader data
    let summary := if leakPercentage data > 50 then
        summary ++ "- CRITICAL: Over 50% of allocated memory is leaked!\n"
      else summary
    let summary := if data.MemoryFragmentation > 80 then
        summary ++ "- HIGH: Severe memory fragmentation detected\n"
      else summary
    let suspectLeaks := data.Leaks.countP (fun leak => leak.IsSuspect)
    if suspectLeaks > 0 then
      summary ++ ("- " ++ toString suspectLeaks ++ " suspect leak locations identified\n")
    else summary

/-- The non-strict order induced by the GetTopLeakers comparator
`leaks[i].LeakSize > leaks[j].LeakSize` (descending by leaked bytes). -/
def leakSizeGE (a b : Leak) : Prop := decide (b.LeakSize > a.LeakSize) = false

instance : DecidableRel leakSizeGE := fun a b => by
  unfold leakSizeGE; infer_instance

/-- The copy of data.Leaks sorted descending by LeakSize in GetTopLeakers
(the sort.Slice call with `leaks[i].LeakSize > leaks[j].LeakSize`). -/
def topLeakersSorted (data : MemProData) : List Leak :=
  List.insertionSort leakSizeGE data.Leaks

/-- One iteration of the printing loop in GetTopLeakers (`i` is the 0-based
loop index). -/
def renderLeakEntry (i : Nat) (leak : Leak) : String :=
  toString (i + 1) ++ ". " ++ leak.FunctionName ++ "\n" ++
  "   Leak Size: " ++ toString leak.LeakSize ++ " bytes (" ++
    fmtFloat2 ((leak.LeakSize : ℚ) / 1024) ++ " KB)\n" ++
  "   Leak Count: " ++ toString leak.LeakCount ++ " allocations\n" ++
  "   Leak Score: " ++ fmtFloat2 leak.LeakScore ++ "\n" ++
  "   Suspect: " ++ toString leak.IsSuspect ++ "\n" ++
  (if leak.FileName ≠ "" then
    "   Location: " ++ leak.FileName ++ ":" ++ toString leak.LineNumber ++ "\n"
   else "") ++
  (if leak.CallStack ≠ "" then "   CallStack: " ++ leak.CallStack ++ "\n"
   else "") ++
  "\n"

/-- The clamp `if n > len(leaks) \x7b n = len(leaks) \x7d` in GetTopLeakers. -/
def topLeakersClamp (data : MemProData) (n : Int) : Int :=
  if n > (data.Leaks.length : Int) then (data.Leaks.length : Int) else n

/-- The list of entry blocks printed by the `for i := 0; i < n; i++` loop of
GetTopLeakers (empty when the clamped n is not positive). -/
def topLeakersEntries (data : MemProData) (n : Int) : List String :=
  ((topLeakersSorted data).take (topLeakersClamp data n).toNat).enum.map
    fun p => renderLeakEntry p.1 p.2

/-- GetTopLeakers from analyzer.go. -/
def GetTopLeakers : Option MemProData → Int → String
  | none, _ => "Error: No data available for analysis"
  | some data, n =>
    "Top " ++ toString (topLeakersClamp data n) ++ " Memory Leakers:\n" ++
    "====================\n\n" ++
    String.join (topLeakersEntries data n)

/-! Helper lemmas. -/

lemma strContains_append_left {a : String} (b : String) {sub : String}
    (h : strContains a sub = true) : strContains (a ++ b) sub = true := by
  unfold strContains at h ⊢
  rw [decide_eq_true_eq] at h ⊢
  obtain ⟨s, t, hst⟩ := h
  exact ⟨s, t ++ b.data, by rw [String.data_append, ← hst]; simp⟩

lemma strContains_append_right (a : String) {b sub : String}
    (h : strContains b sub = true) : strContains (a ++ b) sub = true := by
  unfold strContains at h ⊢
  rw [decide_eq_true_eq] at h ⊢
  obtain ⟨s, t, hst⟩ := h
  exact ⟨a.data ++ s, t, by rw [String.data_append, ← hst]; simp⟩

lemma strContains_self_append (sub t : String) : strContains (sub ++ t) sub = true := by
  unfold strContains
  rw [decide_eq_true_eq]
  exact ⟨[], t.data, by simp [String.data_append]⟩

lemma strContains_trans {s a b : String} (hab : strContains a b = true)
    (hsa : strContains s a = true) : strContains s b = true := by
  unfold strContains at hab hsa ⊢
  rw [decide_eq_true_eq] at hab hsa ⊢
  exact hab.trans hsa

lemma leakLoop_eq (l : List Leak) (acc : List MemoryIssue) :
    l.foldl
      (fun acc leak =>
        if leak.LeakSize = 0 ∧ leak.LeakCount = 0 then acc
        else acc ++ [buildLeakIssue leak]) acc
      = acc ++ (l.filter fun lk =>
          decide (¬(lk.LeakSize = 0 ∧ lk.LeakCount = 0))).map buildLeakIssue := by
  induction l generalizing acc with
  | nil => simp
  | cons hd tl ih =>
    by_cases h : hd.LeakSize = 0 ∧ hd.LeakCount = 0
    · simp [List.foldl_cons, List.filter_cons, h, ih, not_and_or]
    · have h2 : ¬hd.LeakSize = 0 ∨ ¬hd.LeakCount = 0 := not_and_or.mp h
      simp [List.foldl_cons, List.filter_cons, h, h2, ih, not_and_or]

lemma AnalyzeLeaks_some_eq (d : MemProData) :
    AnalyzeLeaks (some d) = List.insertionSort leakIssueLE
      ((d.Leaks.filter fun lk =>
        decide (¬(lk.LeakSize = 0 ∧ lk.LeakCount = 0))).map buildLeakIssue) := by
  simp only [AnalyzeLeaks, leakLoop_eq, List.nil_append]

lemma largeLoop_eq (l : List FunctionStat) (acc : List MemoryIssue) :
    l.foldl
      (fun acc fn =>
        if fn.AverageSize > 10000 ∨ fn.MaxSize > 50000 then
          acc ++ [buildLargeIssue fn]
        else acc) acc
      = acc ++ (l.filter fun fn =>
          decide (fn.AverageSize > 10000 ∨ fn.MaxSize > 50000)).map buildLargeIssue := by
  induction l generalizing acc with
  | nil => simp
  | cons hd tl ih =>
    by_cases h : hd.AverageSize > 10000 ∨ hd.MaxSize > 50000
    · simp [List.foldl_cons, List.filter_cons, h, ih]
    · simp [List.foldl_cons, List.filter_cons, h, ih]

lemma leakIssueLE_iff (i j : MemoryIssue) :
    leakIssueLE i j ↔ severityRank i.Severity ≤ severityRank j.Severity ∧
      (severityRank i.Severity = severityRank j.Severity → j.Size ≤ i.Size) := by
  unfold leakIssueLE leakIssueLess
  dsimp only
  split_ifs with h <;> rw [decide_eq_false_iff_not] <;> omega

instance : IsTotal MemoryIssue leakIssueLE where
  total a b := by
    rw [leakIssueLE_iff, leakIssueLE_iff]
    omega

instance : IsTrans MemoryIssue leakIssueLE where
  trans a b c := by
    rw [leakIssueLE_iff, leakIssueLE_iff, leakIssueLE_iff]
    omega

lemma leakSizeGE_iff (a b : Leak) : leakSizeGE a b ↔ b.LeakSize ≤ a.LeakSize := by
  unfold leakSizeGE
  simp [decide_eq_false_iff_not]

instance : IsTotal Leak leakSizeGE where
  total a b := by
    rw [leakSizeGE_iff, leakSizeGE_iff]
    omega

instance : IsTrans Leak leakSizeGE where
  trans a b c := by
    rw [leakSizeGE_iff, leakSizeGE_iff, leakSizeGE_iff]
    omega

/-! Sample data used by witnesses and counterexamples. -/

/-- Sample leak record from the spec scenario: unknown symbol, 5000 bytes,
one allocation, not suspect. -/
def sampleUnknownLeak : Leak :=
  { FunctionName := "Unknown Function at 0x1234", FileName := "", LineNumber := 0,
    LeakSize := 5000, LeakCount := 1, LeakScore := 0, CallStack := "", IsSuspect := false }

/-- Sample suspect leak above the critical threshold. -/
def sampleSuspectLeak : Leak :=
  { FunctionName := "alloc_buffer", FileName := "buf.cpp", LineNumber := 10,
    LeakSize := 200000, LeakCount := 4, LeakScore := 9, CallStack := "", IsSuspect := true }

/-- Sample non-suspect leak above the High byte threshold. -/
def sampleHighLeak : Leak :=
  { FunctionName := "make_table", FileName := "tab.cpp", LineNumber := 20,
    LeakSize := 60000, LeakCount := 2, LeakScore := 3, CallStack := "", IsSuspect := false }

/-- Sample zero-evidence leak record (size and count both zero). -/
def sampleZeroLeak : Leak :=
  { FunctionName := "noop", FileName := "", LineNumber := 0,
    LeakSize := 0, LeakCount := 0, LeakScore := 5, CallStack := "", IsSuspect := true }

/-- Snapshot with no data at all. -/
def sampleEmptySnapshot : MemProData :=
  { SessionName := "", TotalSnapshots := 0, TotalAllocations := 0, TotalSize := 0,
    LeakCount := 0, LeakSize := 0, MemoryFragmentation := 0, CallTrees := [],
    Functions := [], Leaks := [], PageViews := [], Types := [] }

/-- Snapshot holding exactly the spec-scenario leak record. -/
def sampleUnknownSnapshot : MemProData :=
  { sampleEmptySnapshot with
    SessionName := "scenario", TotalAllocations := 1, TotalSize := 100000,
    LeakCount := 1, LeakSize := 5000, Leaks := [sampleUnknownLeak] }

/-- Snapshot holding a mix of leak records of all kinds. -/
def sampleMixedSnapshot : MemProData :=
  { sampleEmptySnapshot with
    SessionName := "mixed", TotalAllocations := 10, TotalSize := 1000000,
    LeakCount := 4, LeakSize := 265000,
    Leaks := [sampleUnknownLeak, sampleHighLeak, sampleZeroLeak, sampleSuspectLeak] }

/-- Snapshot whose fragmentation is exactly 80 percent. -/
def sampleFrag80Snapshot : MemProData :=
  { sampleEmptySnapshot with MemoryFragmentation := 80 }

/-- Sample function statistic from the spec scenario (average 15000, max
120000, three allocations). -/
def sampleLargeFn : FunctionStat :=
  { FunctionName := "read_blob", FileName := "blob.cpp", LineNumber := 7,
    AllocationCount := 3, TotalSize := 45000, AverageSize := 15000, MinSize := 1000,
    MaxSize := 120000, Percentage := 4 }

/-- Snapshot holding exactly the spec-scenario function statistic. -/
def sampleFnSnapshot : MemProData :=
  { sampleEmptySnapshot with Functions := [sampleLargeFn] }

/-! Claim theorems. -/

/-- Claim C1: every Issue produced by AnalyzeLeaks comes from a LeakRecord of
the snapshot and carries the severity computed by calculateLeakSeverity, and
that severity is exactly one of Critical, High, Medium, Low, determined by
the first matching rule in precedence order: Critical if suspect and leaked
bytes > 100000; else High if suspect or leaked bytes > 50000; else Medium if
leaked bytes > 10000 or leaked count > 100; else Low. -/
theorem claim_C1 (d : MemProData) :
    (∀ issue ∈ AnalyzeLeaks (some d), ∃ leak ∈ d.Leaks,
      issue = buildLeakIssue leak ∧ issue.Severity = calculateLeakSeverity leak) ∧
    ∀ leak : Leak,
      calculateLeakSeverity leak ∈ (["Critical", "High", "Medium", "Low"] : List String) ∧
      (calculateLeakSeverity leak = "Critical" ↔
        leak.IsSuspect = true ∧ leak.LeakSize > 100000) ∧
      (calculateLeakSeverity leak = "High" ↔
        ¬(leak.IsSuspect = true ∧ leak.LeakSize > 100000) ∧
        (leak.IsSuspect = true ∨ leak.LeakSize > 50000)) ∧
      (calculateLeakSeverity leak = "Medium" ↔
        ¬(leak.IsSuspect = true ∧ leak.LeakSize > 100000) ∧
        ¬(leak.IsSuspect = true ∨ leak.LeakSize > 50000) ∧
        (leak.LeakSize > 10000 ∨ leak.LeakCount > 100)) ∧
      (calculateLeakSeverity leak = "Low" ↔
        ¬(leak.IsSuspect = true ∧ leak.LeakSize > 100000) ∧
        ¬(leak.IsSuspect = true ∨ leak.LeakSize > 50000) ∧
        ¬(leak.LeakSize > 10000 ∨ leak.LeakCount > 100)) := by
  constructor
  · intro issue hmem
    rw [AnalyzeLeaks_some_eq, List.mem_insertionSort] at hmem
    obtain ⟨leak, hlk, rfl⟩ := List.mem_map.mp hmem
    exact ⟨leak, (List.mem_filter.mp hlk).1, rfl, rfl⟩
  · intro leak
    unfold calculateLeakSeverity
    split_ifs with h1 h2 h3 <;> simp_all

/-- Claim C1 witness: the suspect 200000-byte leak of the mixed sample
snapshot yields an issue traced back to a source record. -/
theorem claim_C1_witness :
    ∃ leak ∈ sampleMixedSnapshot.Leaks,
      buildLeakIssue sampleSuspectLeak = buildLeakIssue leak ∧
      (buildLeakIssue sampleSuspectLeak).Severity = calculateLeakSeverity leak :=
  (claim_C1 sampleMixedSnapshot).1 (buildLeakIssue sampleSuspectLeak) (by decide)

/-- Claim C2: the list returned by AnalyzeLeaks is sorted so that adjacent
pairs have non-decreasing severity rank (Critical=0, High=1, Medium=2, Low=3,
unknown strings last) and, within equal rank, non-increasing size. -/
theorem claim_C2 (d : MemProData) :
    List.Chain'
      (fun i j => severityRank i.Severity ≤ severityRank j.Severity ∧
        (severityRank i.Severity = severityRank j.Severity → j.Size ≤ i.Size))
      (AnalyzeLeaks (some d)) := by
  rw [AnalyzeLeaks_some_eq]
  refine List.Pairwise.chain' ?_
  refine List.Pairwise.imp ?_ (List.sorted_insertionSort leakIssueLE _)
  intro a b hab
  exact (leakIssueLE_iff a b).mp hab

/-- Claim C2 witness: the ordering property holds on the mixed sample
snapshot, whose analysis yields three issues. -/
theorem claim_C2_witness :
    List.Chain'
      (fun i j => severityRank i.Severity ≤ severityRank j.Severity ∧
        (severityRank i.Severity = severityRank j.Severity → j.Size ≤ i.Size))
      (AnalyzeLeaks (some sampleMixedSnapshot)) :=
  claim_C2 sampleMixedSnapshot

/-- Claim C3: AnalyzeFragmentation returns exactly one High issue when the
fragmentation percentage is strictly greater than 80, exactly one Medium
issue when it is strictly greater than 50 but not greater than 80, and an
empty list otherwise; exactly 80 yields Medium and exactly 50 yields
nothing. -/
theorem claim_C3 (d : MemProData) :
    (d.MemoryFragmentation > 80 →
      ∃ iss, AnalyzeFragmentation (some d) = [iss] ∧ iss.Severity = "High") ∧
    (d.MemoryFragmentation > 50 ∧ ¬d.MemoryFragmentation > 80 →
      ∃ iss, AnalyzeFragmentation (some d) = [iss] ∧ iss.Severity = "Medium") ∧
    (¬d.MemoryFragmentation > 50 → AnalyzeFragmentation (some d) = []) ∧
    (d.MemoryFragmentation = 80 →
      ∃ iss, AnalyzeFragmentation (some d) = [iss] ∧ iss.Severity = "Medium") ∧
    (d.MemoryFragmentation = 50 → AnalyzeFragmentation (some d) = []) := by
  refine ⟨?_, ?_, ?_, ?_, ?_⟩
  · intro h
    exact ⟨_, by rw [AnalyzeFragmentation, if_pos h], rfl⟩
  · intro ⟨h50, h80⟩
    exact ⟨_, by rw [AnalyzeFragmentation, if_neg h80, if_pos h50], rfl⟩
  · intro h50
    have h80 : ¬d.MemoryFragmentation > 80 := by
      intro h
      exact h50 (lt_trans (by norm_num) h)
    rw [AnalyzeFragmentation, if_neg h80, if_neg h50]
  · intro h
    have h80 : ¬d.MemoryFragmentation > 80 := by rw [h]; norm_num
    have h50 : d.MemoryFragmentation > 50 := by rw [h]; norm_num
    exact ⟨_, by rw [AnalyzeFragmentation, if_neg h80, if_pos h50], rfl⟩
  · intro h
    have h50 : ¬d.MemoryFragmentation > 50 := by rw [h]; norm_num
    have h80 : ¬d.MemoryFragmentation > 80 := by rw [h]; norm_num
    rw [AnalyzeFragmentation, if_neg h80, if_neg h50]

/-- Claim C3 witness: the sample snapshot with fragmentation exactly 80
yields one Medium issue. -/
theorem claim_C3_witness :
    ∃ iss, AnalyzeFragmentation (some sampleFrag80Snapshot) = [iss] ∧
      iss.Severity = "Medium" :=
  (claim_C3 sampleFrag80Snapshot).2.2.2.1 rfl

/-- Claim C5: a LeakRecord with zero leaked bytes and zero leaked count
produces no Issue: the output has exactly one issue per leak record passing
the non-zero filter, and every produced issue has a non-zero size or count. -/
theorem claim_C5 (d : MemProData) :
    (AnalyzeLeaks (some d)).length =
      (d.Leaks.filter fun lk =>
        decide (¬(lk.LeakSize = 0 ∧ lk.LeakCount = 0))).length ∧
    ∀ issue ∈ AnalyzeLeaks (some d), ¬(issue.Size = 0 ∧ issue.Count = 0) := by
  constructor
  · rw [AnalyzeLeaks_some_eq, (List.perm_insertionSort _ _).length_eq, List.length_map]
  · intro issue hmem
    rw [AnalyzeLeaks_some_eq, List.mem_insertionSort] at hmem
    obtain ⟨leak, hlk, rfl⟩ := List.mem_map.mp hmem
    have hz := of_decide_eq_true (List.mem_filter.mp hlk).2
    simpa [buildLeakIssue] using hz

/-- Claim C5 witness: the mixed sample snapshot has four leak records, one of
them zero-evidence, and exactly three issues come out. -/
theorem claim_C5_witness :
    (AnalyzeLeaks (some sampleMixedSnapshot)).length =
      (sampleMixedSnapshot.Leaks.filter fun lk =>
        decide (¬(lk.LeakSize = 0 ∧ lk.LeakCount = 0))).length ∧
    ¬((buildLeakIssue sampleSuspectLeak).Size = 0 ∧
      (buildLeakIssue sampleSuspectLeak).Count = 0) :=
  ⟨(claim_C5 sampleMixedSnapshot).1,
    (claim_C5 sampleMixedSnapshot).2 (buildLeakIssue sampleSuspectLeak) (by decide)⟩

/-- Claim C6: AnalyzeLargeAllocations emits one Issue per FunctionStat whose
average size exceeds 10000 bytes or whose max size exceeds 50000 bytes, in
input order, and the Issue is High exactly when max size exceeds 100000
bytes, Medium otherwise. -/
theorem claim_C6 (d : MemProData) :
    AnalyzeLargeAllocations (some d) =
      (d.Functions.filter fun fn =>
        decide (fn.AverageSize > 10000 ∨ fn.MaxSize > 50000)).map buildLargeIssue ∧
    ∀ fn : FunctionStat,
      ((buildLargeIssue fn).Severity = "High" ↔ fn.MaxSize > 100000) ∧
      ((buildLargeIssue fn).Severity = "Medium" ↔ ¬fn.MaxSize > 100000) := by
  constructor
  · simp only [AnalyzeLargeAllocations, largeLoop_eq, List.nil_append]
  · intro fn
    unfold buildLargeIssue
    dsimp only
    split_ifs with h <;> simp_all

/-- Claim C6 witness: the scenario FunctionStat with max size 120000 yields a
High issue. -/
theorem claim_C6_witness :
    (buildLargeIssue sampleLargeFn).Severity = "High" :=
  ((claim_C6 sampleFnSnapshot).2 sampleLargeFn).1.mpr (by decide)

/-- Claim C10: with no loaded data, the three analysis operations return an
empty list and the two report operations return the fixed error string. -/
theorem claim_C10 :
    AnalyzeLeaks none = [] ∧
    AnalyzeFragmentation none = [] ∧
    AnalyzeLargeAllocations none = [] ∧
    GetSummary none = "Error: No data available for analysis" ∧
    ∀ n : Int, GetTopLeakers none n = "Error: No data available for analysis" :=
  ⟨rfl, rfl, rfl, rfl, fun _ => rfl⟩

/-- Claim C10 witness: the error string comes back for a concrete request of
five top leakers with no data. -/
theorem claim_C10_witness :
    GetTopLeakers none 5 = "Error: No data available for analysis" :=
  claim_C10.2.2.2.2 5

/-- Claim C4 counterexample: at n = -1 the report header states "Top -1",
not "Top 0", so the claim fails for negative n (the clamp in GetTopLeakers
only lowers n, it never raises a negative n to zero). -/
theorem claim_C4_counterexample :
    strContains (GetTopLeakers (some sampleEmptySnapshot) (-1)) "Top 0" = false ∧
    GetTopLeakers (some sampleEmptySnapshot) (-1) =
      "Top -1 Memory Leakers:\n====================\n\n" := by
  decide

/-- Claim C4 amended: for every n ≤ 0, GetTopLeakers succeeds with a report
that lists no leak entries and whose header states the requested count n
itself; in particular for n = 0 the header states "Top 0". -/
theorem claim_C4_amended (d : MemProData) (n : Int) (h : n ≤ 0) :
    topLeakersEntries d n = [] ∧
    GetTopLeakers (some d) n =
      "Top " ++ toString n ++ " Memory Leakers:\n" ++ "====================\n\n" ∧
    (n = 0 → strContains (GetTopLeakers (some d) n) "Top 0" = true) := by
  have hc : topLeakersClamp d n = n := by
    unfold topLeakersClamp
    rw [if_neg]
    omega
  have he : topLeakersEntries d n = [] := by
    unfold topLeakersEntries
    rw [hc]
    have hz : n.toNat = 0 := by omega
    rw [hz]
    simp
  refine ⟨he, ?_, ?_⟩
  · simp only [GetTopLeakers]
    rw [hc, he]
    simp [String.join]
  · intro h0
    subst h0
    simp only [GetTopLeakers]
    rw [hc, he]
    decide

/-- Claim C4 witness: at n = 0 the amended statement gives the zero-count
header and no entries. -/
theorem claim_C4_witness :
    topLeakersEntries sampleEmptySnapshot 0 = [] ∧
    strContains (GetTopLeakers (some sampleEmptySnapshot) 0) "Top 0" = true :=
  ⟨(claim_C4_amended sampleEmptySnapshot 0 (by decide)).1,
   (claim_C4_amended sampleEmptySnapshot 0 (by decide)).2.2 rfl⟩

/-- Claim C8: when n exceeds the number of leak records, GetTopLeakers lists
exactly one entry per leak record, and the ranking is descending by leaked
byte size. -/
theorem claim_C8 (d : MemProData) (n : Int) (h : (d.Leaks.length : Int) < n) :
    (topLeakersEntries d n).length = d.Leaks.length ∧
    List.Chain' (fun a b => b.LeakSize ≤ a.LeakSize) (topLeakersSorted d) := by
  constructor
  · unfold topLeakersEntries topLeakersClamp
    rw [if_pos h]
    have hlen : (topLeakersSorted d).length = d.Leaks.length :=
      (List.perm_insertionSort _ _).length_eq
    simp only [List.length_map, List.enum_length, List.length_take, hlen]
    omega
  · refine List.Pairwise.chain' ?_
    refine List.Pairwise.imp ?_ (List.sorted_insertionSort leakSizeGE _)
    intro a b hab
    exact (leakSizeGE_iff a b).mp hab

/-- Claim C8 witness: requesting ten top leakers from the four-record mixed
sample snapshot yields exactly four entries, ranked descending by size. -/
theorem claim_C8_witness :
    (topLeakersEntries sampleMixedSnapshot 10).length =
      sampleMixedSnapshot.Leaks.length ∧
    List.Chain' (fun a b => b.LeakSize ≤ a.LeakSize)
      (topLeakersSorted sampleMixedSnapshot) :=
  claim_C8 sampleMixedSnapshot 10 (by decide)

/-- Claim C9: the scenario snapshot with one unknown-symbol leak of 5000
bytes and count 1 yields exactly one issue, severity Low, whose description
mentions missing debug symbols and whose suggestion recommends enabling
debug symbols; in general the unknown-symbol marker takes precedence over
every other suggestion rule. -/
theorem claim_C9 :
    ((AnalyzeLeaks (some sampleUnknownSnapshot)).map (fun i => i.Severity) = ["Low"] ∧
     ∀ issue ∈ AnalyzeLeaks (some sampleUnknownSnapshot),
       strContains issue.Description "missing debug symbols" = true ∧
       strContains issue.Suggestion "Enable debug symbols" = true) ∧
    ∀ leak : Leak, strContains leak.FunctionName "Unknown Function" = true →
      generateLeakSuggestion leak =
        "Enable debug symbols and rebuild with full symbol information to identify the exact source of this leak. Check for third-party libraries or dynamically loaded modules." ∧
      formatLeakDescription leak =
        "Unknown function leaked " ++ toString leak.LeakSize ++ " bytes across " ++
          toString leak.LeakCount ++
          " allocations. This may indicate missing debug symbols or dynamically loaded code." := by
  refine ⟨⟨by decide, by decide⟩, ?_⟩
  intro leak h
  constructor
  · unfold generateLeakSuggestion
    rw [if_pos h]
  · unfold formatLeakDescription
    rw [if_pos h]

/-- Claim C9 witness: the debug-symbols suggestion is produced for the
scenario record itself. -/
theorem claim_C9_witness :
    generateLeakSuggestion sampleUnknownLeak =
      "Enable debug symbols and rebuild with full symbol information to identify the exact source of this leak. Check for third-party libraries or dynamically loaded modules." :=
  (claim_C9.2 sampleUnknownLeak (by decide)).1

/-- Claim C7: when the snapshot's total size is zero the computed leak
percentage is zero and the summary prints "Leak Percentage: 0.00%" (no
division is attempted); when the total size is positive the leak percentage
equals leaked bytes divided by total bytes times 100. -/
theorem claim_C7 (d : MemProData) :
    (d.TotalSize = 0 → leakPercentage d = 0 ∧
      strContains (GetSummary (some d)) "Leak Percentage: 0.00%" = true) ∧
    (0 < d.TotalSize →
      leakPercentage d = (d.LeakSize : ℚ) / (d.TotalSize : ℚ) * 100) := by
  constructor
  · intro h0
    have hlp : leakPercentage d = 0 := by
      unfold leakPercentage
      rw [if_neg]
      omega
    refine ⟨hlp, ?_⟩
    have hfmt : fmtFloat2 (leakPercentage d) = "0.00" := by
      rw [hlp]
      decide
    have hseg : ∀ P : String,
        ("\nLeak Percentage: " ++ ("0.00" ++ ("%" ++ P)) : String) =
          "\nLeak Percentage: 0.00%" ++ P := by
      intro P
      rw [← String.append_assoc, ← String.append_assoc]
      simp
    have hhead : strContains (summaryHeader d) "Leak Percentage: 0.00%" = true := by
      have hn : strContains (summaryHeader d) "\nLeak Percentage: 0.00%" = true := by
        unfold summaryHeader
        rw [hfmt, hseg]
        apply strContains_append_right
        exact strContains_self_append _ _
      exact strContains_trans (by decide) hn
    obtain ⟨S0, hS0⟩ : ∃ s, summaryHeader d = s := ⟨_, rfl⟩
    rw [hS0] at hhead
    simp only [GetSummary]
    rw [hS0]
    split_ifs <;>
      first
        | exact hhead
        | exact strContains_append_left _ hhead
        | exact strContains_append_left _ (strContains_append_left _ hhead)
        | exact strContains_append_left _
            (strContains_append_left _ (strContains_append_left _ hhead))
  · intro hpos
    unfold leakPercentage
    rw [if_pos hpos]

/-- Claim C7 witness: the empty sample snapshot has total size zero, and its
summary prints a 0.00% leak percentage. -/
theorem claim_C7_witness :
    leakPercentage sampleEmptySnapshot = 0 ∧
    strContains (GetSummary (some sampleEmptySnapshot)) "Leak Percentage: 0.00%" = true :=
  (claim_C7 sampleEmptySnapshot).1 rfl
